import Mathlib

/-!
Verification of the npe240a2 serial-telemetry decoder.

This file shallowly embeds the program: byte buffers are lists of natural
numbers (each element a byte value 0..255 as produced by the serial reader),
Python floats that only ever hold exact small decimals are modelled as
rationals, and the single mutable Mqtt object is modelled as explicit state
passing over per-metric slots.  Each definition is translated directly from
the corresponding function or property of the source file npe240a2.py.
-/

/-- Floor of a rational as an integer (numerator floor-divided by denominator). -/
def floorQ (q : ℚ) : ℤ := q.num.fdiv (q.den : ℤ)

/-- Model of the Python built-in round(x, 1): round to one decimal digit,
ties going to the even multiple of 0.1 (banker rounding, as Python does). -/
def pyRound1 (q : ℚ) : ℚ :=
  let x := q * 10
  let f := floorQ x
  let frac := x - (f : ℚ)
  let r : ℤ :=
    if frac < 1/2 then f
    else if 1/2 < frac then f + 1
    else if f % 2 = 0 then f else f + 1
  (r : ℚ) / 10

/-- Helpers.slice_bytes: data[index : index+length]. -/
def Helpers.slice_bytes (data : List Nat) (index length : Nat) : List Nat :=
  (data.drop index).take length

/-- int.from_bytes(..., byteorder=little): combine bytes little-endian. -/
def Helpers.fromBytesLE : List Nat → Nat
  | [] => 0
  | b :: rest => b + 256 * Helpers.fromBytesLE rest

/-- Helpers.combine_bytes: little-endian integer from a slice of the data. -/
def Helpers.combine_bytes (data : List Nat) (index length : Nat) : Nat :=
  Helpers.fromBytesLE (Helpers.slice_bytes data index length)

/-- Helpers.convert_c_f: round(celsius * 9/5 + 32, 1). -/
def Helpers.convert_c_f (celsius : ℚ) : ℚ :=
  pyRound1 (celsius * 9 / 5 + 32)

/-- Helpers.convert_liters_gallons: round(liters * 0.264172, 1). -/
def Helpers.convert_liters_gallons (liters : ℚ) : ℚ :=
  pyRound1 (liters * (264172 / 1000000))

/-- Helpers.calculate_crc: the device checksum.  For buffers shorter than 2
bytes the result is 0x00; otherwise fold over the buffer starting from 0xff,
each step shifting left, conditionally reducing with XOR 0x4b when the value
exceeds 0xff, then XORing the low byte with the data byte; the returned value
is masked to the low byte. -/
def Helpers.calculate_crc (buffer : List Nat) : Nat :=
  let result :=
    if buffer.length < 2 then 0x00
    else
      buffer.foldl (fun result b =>
        let r1 := result <<< 1
        let r2 := if r1 > 0xff then (r1 &&& 0xff) ^^^ 0x4b else r1
        (r2 &&& 0xff) ^^^ b) 0xff
  result &&& 0xff

/-- Modelled from the spec: the reference checksum algorithm of section 4.1,
stated in the spec own words (result 0x00 for buffers of fewer than 2 bytes;
otherwise start at 0xFF, per byte shift left, conditionally replace with
(value AND 0xFF) XOR 0x4B when above 0xFF, XOR the low byte with the data
byte, and mask the final result to 8 bits). -/
def checksumSpec (buffer : List Nat) : Nat :=
  if buffer.length < 2 then 0x00
  else
    (buffer.foldl (fun value b =>
      let v1 := value <<< 1
      let v2 := if v1 > 0xff then (v1 &&& 0xff) ^^^ 0x4b else v1
      (v2 &&& 0xff) ^^^ b) 0xff) &&& 0xff

/-- Header constants and fields, as read from the first six frame bytes. -/
structure Header where
  marker : Nat
  direction : Nat
  type : Nat
  unknown_4 : Nat
  length : Nat
deriving DecidableEq

def Header.MARKER_LO : Nat := 0xF7

def Header.MARKER_HI : Nat := 0x05

def Header.GAS_ID : Nat := 0x0f

def Header.WATER_ID : Nat := 0x50

/-- Header.__init__: marker from bytes 0..1 (little-endian), then direction,
type, unknown and length bytes. -/
def Header.ofData (data : List Nat) : Header :=
  ⟨Helpers.combine_bytes data 0 2, data.getD 2 0, data.getD 3 0,
    data.getD 4 0, data.getD 5 0⟩

/-- Packet: the full frame bytes (6 header bytes, payload, trailing crc). -/
structure Packet where
  data : List Nat
deriving DecidableEq

def Packet.header (p : Packet) : Header := Header.ofData p.data

/-- Packet.crc: data[-1], the trailing checksum byte. -/
def Packet.crc (p : Packet) : Nat := p.data.getLastD 0

/-- The payload of a frame: the bytes after the 6-byte header, of the length
declared by the header (the trailing checksum byte excluded). -/
def payloadBytes (p : Packet) : List Nat :=
  (p.data.drop 6).take p.header.length

/-- GasPacket: typed view over a frame claiming the gas layout. -/
structure GasPacket where
  packet : Packet
deriving DecidableEq

/-- GasPacket.water_set_temp_c: data[14] * 0.5. -/
def GasPacket.water_set_temp_c (g : GasPacket) : ℚ :=
  (g.packet.data.getD 14 0 : ℚ) * (1/2)

/-- GasPacket.water_outlet_temp_c: data[15] * 0.5. -/
def GasPacket.water_outlet_temp_c (g : GasPacket) : ℚ :=
  (g.packet.data.getD 15 0 : ℚ) * (1/2)

/-- GasPacket.water_inlet_temp_c: data[16] * 0.5. -/
def GasPacket.water_inlet_temp_c (g : GasPacket) : ℚ :=
  (g.packet.data.getD 16 0 : ℚ) * (1/2)

/-- GasPacket.decode: succeeds exactly when the header length equals 42. -/
def GasPacket.decode (p : Packet) : Option GasPacket :=
  if p.header.length = 42 then some ⟨p⟩ else none

/-- WaterPacket: typed view over a frame claiming the water layout. -/
structure WaterPacket where
  packet : Packet
deriving DecidableEq

/-- WaterPacket.flow_status: data[8]. -/
def WaterPacket.flow_status (w : WaterPacket) : Nat :=
  w.packet.data.getD 8 0

/-- WaterPacket.flow_status_demand: flow_status == 0x20. -/
def WaterPacket.flow_status_demand (w : WaterPacket) : Bool :=
  w.flow_status == 0x20

/-- WaterPacket.system_active: data[27] == 0x01. -/
def WaterPacket.system_active (w : WaterPacket) : Bool :=
  w.packet.data.getD 27 0 == 0x01

/-- WaterPacket.water_set_temp_c: data[11] * 0.5. -/
def WaterPacket.water_set_temp_c (w : WaterPacket) : ℚ :=
  (w.packet.data.getD 11 0 : ℚ) * (1/2)

/-- WaterPacket.heatexchanger_outlet_temp_c: data[12] * 0.5. -/
def WaterPacket.heatexchanger_outlet_temp_c (w : WaterPacket) : ℚ :=
  (w.packet.data.getD 12 0 : ℚ) * (1/2)

/-- WaterPacket.heatexchanger_outlet_temp_f: Celsius value converted. -/
def WaterPacket.heatexchanger_outlet_temp_f (w : WaterPacket) : ℚ :=
  Helpers.convert_c_f w.heatexchanger_outlet_temp_c

/-- WaterPacket.flow_rate_lpm: data[18] / 10.0. -/
def WaterPacket.flow_rate_lpm (w : WaterPacket) : ℚ :=
  (w.packet.data.getD 18 0 : ℚ) / 10

/-- WaterPacket.flow_rate_gpm: liters-per-minute value converted to gallons. -/
def WaterPacket.flow_rate_gpm (w : WaterPacket) : ℚ :=
  Helpers.convert_liters_gallons w.flow_rate_lpm

/-- WaterPacket.decode: succeeds exactly when the header length equals 34. -/
def WaterPacket.decode (p : Packet) : Option WaterPacket :=
  if p.header.length = 34 then some ⟨p⟩ else none

/-- Outcome of the packet-type dispatch of main_loop (lines 562..577). -/
inductive Decoded where
  | gas : GasPacket → Decoded
  | water : WaterPacket → Decoded
  | invalid : Decoded
  | unknown : Decoded
deriving DecidableEq

/-- The main_loop dispatch on header.type: GAS_ID frames go through
GasPacket.decode, WATER_ID frames through WaterPacket.decode, a failed decode
is reported invalid, and any other type byte is an unknown packet. -/
def classify_packet (p : Packet) : Decoded :=
  if p.header.type = Header.GAS_ID then
    match GasPacket.decode p with
    | some g => Decoded.gas g
    | none => Decoded.invalid
  else if p.header.type = Header.WATER_ID then
    match WaterPacket.decode p with
    | some w => Decoded.water w
    | none => Decoded.invalid
  else Decoded.unknown

/-- read_packet, fuel-indexed: the serial stream is a list of bytes; the
function scans for the 0xF7 marker byte, checks the 0x05 byte that must
follow (a non-matching byte is consumed and not re-examined), reads the four
remaining header bytes and then length + 1 bytes of payload and checksum,
reconstructs the frame, and emits it together with the unread remainder of
the stream when the checksum over all bytes but the last equals the last
byte; on a mismatch it keeps scanning the remainder.  A short read returns
none.  Each recursive call consumes at least one byte of the stream, so fuel
equal to the stream length plus one is always sufficient. -/
def read_packet_fuel : Nat → List Nat → Option (Packet × List Nat)
  | 0, _ => none
  | _ + 1, [] => none
  | fuel + 1, b :: rest =>
    if b ≠ Header.MARKER_LO then read_packet_fuel fuel rest
    else
      match rest with
      | [] => none
      | b2 :: rest2 =>
        if b2 ≠ Header.MARKER_HI then read_packet_fuel fuel rest2
        else if rest2.length < 4 then none
        else
          let header_rest := rest2.take 4
          let data_length := header_rest.getD 3 0
          let after4 := rest2.drop 4
          if after4.length < data_length + 1 then none
          else
            let remaining := after4.take (data_length + 1)
            let data := Header.MARKER_LO :: Header.MARKER_HI ::
              (header_rest ++ remaining)
            let rest' := after4.drop (data_length + 1)
            if Helpers.calculate_crc data.dropLast = (Packet.mk data).crc then
              some (Packet.mk data, rest')
            else
              read_packet_fuel fuel rest'

/-- read_packet over a finite stream: run the scanning loop with enough fuel. -/
def read_packet (stream : List Nat) : Option (Packet × List Nat) :=
  read_packet_fuel (stream.length + 1) stream

/-- One per-metric slot of the Mqtt object: the attribute holding the last
published value (None before the first publish) and the entry of the
_last_publish_time dictionary for the corresponding topic (none when the
topic is not in the dictionary). -/
structure MetricSlot (V : Type) where
  value : Option V
  lastPublishTime : Option ℚ
deriving DecidableEq

/-- Mqtt._publish_interval_sec. -/
def Mqtt.publish_interval_sec : ℚ := 5

/-- Mqtt.try_publish for one metric: no action when the candidate is None or
equals the stored value; otherwise publish when the topic has no recorded
last-publish time or the interval has elapsed, recording the current time and
the new value; otherwise suppress.  Returns the new slot and the published
value, if any. -/
def Mqtt.try_publish {V : Type} [DecidableEq V] (s : MetricSlot V)
    (new_value : Option V) (current_time : ℚ) : MetricSlot V × Option V :=
  match new_value with
  | none => (s, none)
  | some v =>
    if s.value = some v then (s, none)
    else
      match s.lastPublishTime with
      | none => (⟨some v, some current_time⟩, some v)
      | some last_publish =>
        if Mqtt.publish_interval_sec ≤ current_time - last_publish then
          (⟨some v, some current_time⟩, some v)
        else (s, none)

/-- Mqtt.try_publish with the downstream publish transport made explicit:
the flag says whether the client.publish call raises.  The source mutates
_last_publish_time and the attribute before awaiting client.publish, so when
the call raises the returned slot already carries the committed new value and
timestamp; the returned boolean reports the raised exception. -/
def Mqtt.try_publish_exc {V : Type} [DecidableEq V] (s : MetricSlot V)
    (new_value : Option V) (current_time : ℚ) (publish_raises : Bool) :
    MetricSlot V × Bool :=
  match new_value with
  | none => (s, false)
  | some v =>
    if s.value = some v then (s, false)
    else
      match s.lastPublishTime with
      | none => (⟨some v, some current_time⟩, publish_raises)
      | some last_publish =>
        if Mqtt.publish_interval_sec ≤ current_time - last_publish then
          (⟨some v, some current_time⟩, publish_raises)
        else (s, false)

/-- The candidate value process_water_packet assigns to the water flow-rate
metric (line 627): the decoded flow rate in gallons per minute when the flow
status indicates demand and the system-active flag is set, else 0.0. -/
def water_flow_rate_candidate (w : WaterPacket) : ℚ :=
  if w.flow_status_demand && w.system_active then w.flow_rate_gpm else 0

/-- A minimal valid frame: marker, zero direction, type, reserved and length
bytes, and the matching trailing checksum byte. -/
def c6ValidFrame : List Nat :=
  [0xF7, 0x05, 0x00, 0x00, 0x00, 0x00] ++
    [Helpers.calculate_crc [0xF7, 0x05, 0x00, 0x00, 0x00, 0x00]]

/-- The same minimal frame with its trailing checksum byte corrupted. -/
def c6CorruptFrame : List Nat :=
  [0xF7, 0x05, 0x00, 0x00, 0x00, 0x00] ++
    [(Helpers.calculate_crc [0xF7, 0x05, 0x00, 0x00, 0x00, 0x00] + 1) % 256]

/-- A water frame whose byte at frame offset 11 (payload offset 5) is 10 and
whose byte at frame offset 17 (payload offset 11) is 20. -/
def c2WaterFrame : Packet :=
  Packet.mk ([0xF7, 0x05, 0x00, 0x50, 0x00, 34] ++
    [0, 0, 0, 0, 0, 10] ++ [0, 0, 0, 0, 0, 20] ++ List.replicate 22 0 ++ [0])

/-- A gas frame whose byte at frame offset 15 (payload offset 9) is 10 and
whose byte at frame offset 21 (payload offset 15) is 20. -/
def c2GasFrame : Packet :=
  Packet.mk ([0xF7, 0x05, 0x00, 0x0f, 0x00, 42] ++
    [0, 0, 0, 0, 0, 0, 0, 0, 0, 10] ++ [0, 0, 0, 0, 0, 20] ++
    List.replicate 26 0 ++ [0])

/-- The 34 payload bytes of the end-to-end scenario of the spec: all zero
except the outlet-temperature byte 0x28 at payload offset 6 (frame offset
12, the heat-exchanger outlet temperature byte). -/
def c5PayloadBytes : List Nat :=
  List.replicate 6 0 ++ [0x28] ++ List.replicate 27 0

/-- The scenario stream with the header bytes the spec names, type byte 0x42,
followed by the declared 34 payload bytes and the correct checksum. -/
def c5StreamBad : List Nat :=
  ([0xF7, 0x05, 0x00, 0x42, 0x00, 0x22] ++ c5PayloadBytes) ++
    [Helpers.calculate_crc ([0xF7, 0x05, 0x00, 0x42, 0x00, 0x22] ++ c5PayloadBytes)]

/-- The scenario stream with the water type code 0x50 in the header instead. -/
def c5StreamGood : List Nat :=
  ([0xF7, 0x05, 0x00, 0x50, 0x00, 0x22] ++ c5PayloadBytes) ++
    [Helpers.calculate_crc ([0xF7, 0x05, 0x00, 0x50, 0x00, 0x22] ++ c5PayloadBytes)]

/-- A gas-typed frame with mismatched declared length 10. -/
def c7GasFrame : Packet := Packet.mk [0xF7, 0x05, 0x00, 0x0f, 0x00, 10]

/-- A water-typed frame with mismatched declared length 10. -/
def c7WaterFrame : Packet := Packet.mk [0xF7, 0x05, 0x00, 0x50, 0x00, 10]

/-- Claim C1: the checksum operation equals the reference algorithm of the
spec (0x00 for buffers of fewer than 2 bytes, else the shift, conditional
XOR-0x4B reduction and data-byte XOR fold from 0xFF), and the result is
always masked to 8 bits, hence in 0..255. -/
theorem c1_checksum_matches_spec (buffer : List Nat) :
    Helpers.calculate_crc buffer = checksumSpec buffer ∧
    Helpers.calculate_crc buffer < 256 := by
  constructor
  · by_cases h : buffer.length < 2 <;> simp [Helpers.calculate_crc, checksumSpec, h]
  · exact Nat.lt_succ_of_le Nat.and_le_right

/-- Reading an element of a dropped list is reading at the shifted index. -/
theorem list_getD_drop (l : List Nat) (n i d : Nat) :
    (l.drop n).getD i d = l.getD (n + i) d := by
  induction n generalizing l with
  | zero => simp
  | succ n ih =>
    cases l with
    | nil => simp
    | cons a l => simp [Nat.succ_add, ih l]

/-- Reading an element of a taken prefix below the cut is reading the list. -/
theorem list_getD_take (l : List Nat) (n i d : Nat) (h : i < n) :
    (l.take n).getD i d = l.getD i d := by
  induction l generalizing n i with
  | nil => simp
  | cons a l ih =>
    cases n with
    | zero => exact absurd h (Nat.not_lt_zero i)
    | succ n =>
      cases i with
      | zero => simp
      | succ i => simpa using ih n i (Nat.lt_of_succ_lt_succ h)

/-- Claim C2 counterexample: for a successfully decoded water frame the water
set temperature is the frame byte at offset 11 halved, not the payload byte
at offset 11 halved, and for a successfully decoded gas frame the water
outlet temperature is the frame byte at offset 15 halved, not the payload
byte at offset 15 halved: concrete frames where the two differ. -/
theorem c2_payload_offset_counterexample :
    WaterPacket.decode c2WaterFrame = some ⟨c2WaterFrame⟩ ∧
    WaterPacket.water_set_temp_c ⟨c2WaterFrame⟩ ≠
      ((payloadBytes c2WaterFrame).getD 11 0 : ℚ) * (1/2) ∧
    GasPacket.decode c2GasFrame = some ⟨c2GasFrame⟩ ∧
    GasPacket.water_outlet_temp_c ⟨c2GasFrame⟩ ≠
      ((payloadBytes c2GasFrame).getD 15 0 : ℚ) * (1/2) := by
  have hw : (WaterPacket.mk c2WaterFrame).packet.data.getD 11 0 = 10 := by decide
  have hpw : (payloadBytes c2WaterFrame).getD 11 0 = 20 := by decide
  have hg : (GasPacket.mk c2GasFrame).packet.data.getD 15 0 = 10 := by decide
  have hpg : (payloadBytes c2GasFrame).getD 15 0 = 20 := by decide
  refine ⟨by decide, ?_, by decide, ?_⟩
  · unfold WaterPacket.water_set_temp_c
    rw [hw, hpw]; norm_num
  · unfold GasPacket.water_outlet_temp_c
    rw [hg, hpg]; norm_num

/-- Claim C2 as amended: decoded field offsets are relative to the start of
the full frame, whose first six bytes are the header; relative to the payload
the offsets are six smaller.  For every successfully decoded water frame the
water set temperature is the payload byte at offset 5 (frame offset 11)
times 0.5, and for every successfully decoded gas frame the water outlet
temperature is the payload byte at offset 9 (frame offset 15) times 0.5. -/
theorem c2_frame_offsets (p q : Packet) (w : WaterPacket) (g : GasPacket)
    (hw : WaterPacket.decode p = some w) (hg : GasPacket.decode q = some g) :
    w.water_set_temp_c = ((payloadBytes p).getD 5 0 : ℚ) * (1/2) ∧
    g.water_outlet_temp_c = ((payloadBytes q).getD 9 0 : ℚ) * (1/2) := by
  unfold WaterPacket.decode at hw
  unfold GasPacket.decode at hg
  split at hw
  case isFalse => exact absurd hw (by simp)
  case isTrue h34 =>
    obtain rfl : w = ⟨p⟩ := by injection hw with h; exact h.symm
    split at hg
    case isFalse => exact absurd hg (by simp)
    case isTrue h42 =>
      obtain rfl : g = ⟨q⟩ := by injection hg with h; exact h.symm
      constructor
      · unfold WaterPacket.water_set_temp_c payloadBytes
        rw [h34, list_getD_take _ 34 5 0 (by norm_num), list_getD_drop]
      · unfold GasPacket.water_outlet_temp_c payloadBytes
        rw [h42, list_getD_take _ 42 9 0 (by norm_num), list_getD_drop]

/-- Witness for the amended claim C2, at the two concrete frames above. -/
theorem c2_frame_offsets_witness :
    WaterPacket.water_set_temp_c ⟨c2WaterFrame⟩ =
      ((payloadBytes c2WaterFrame).getD 5 0 : ℚ) * (1/2) ∧
    GasPacket.water_outlet_temp_c ⟨c2GasFrame⟩ =
      ((payloadBytes c2GasFrame).getD 9 0 : ℚ) * (1/2) :=
  c2_frame_offsets c2WaterFrame c2GasFrame ⟨c2WaterFrame⟩ ⟨c2GasFrame⟩
    (by decide) (by decide)

/-- Claim C3 counterexample: a throttled metric starts with last-publish time
0.0, so a differing candidate at time t = 0 is suppressed (0 - 0.0 is below
the 5-second interval), not published as the claim states. -/
theorem c3_initial_candidate_suppressed :
    Mqtt.try_publish (⟨none, some 0⟩ : MetricSlot ℚ) (some 1) 0 =
      (⟨none, some 0⟩, none) := by
  simp [Mqtt.try_publish, Mqtt.publish_interval_sec]

/-- Claim C3 as amended: because the throttled metrics start with last-publish
time 0.0 rather than unset, the first publish cannot happen before t = 5;
with the event times shifted accordingly, the claimed pattern holds: a
differing candidate at t = 5 is published, a second differing candidate at
t = 6 is suppressed leaving the state unchanged, and a third differing
candidate at t = 11 is published. -/
theorem c3_throttle_scenario_shifted (v1 v2 v3 : ℚ) (h2 : v2 ≠ v1) (h3 : v3 ≠ v1) :
    Mqtt.try_publish (⟨none, some 0⟩ : MetricSlot ℚ) (some v1) 5 =
      (⟨some v1, some 5⟩, some v1)
    ∧ Mqtt.try_publish (⟨some v1, some 5⟩ : MetricSlot ℚ) (some v2) 6 =
      (⟨some v1, some 5⟩, none)
    ∧ Mqtt.try_publish (⟨some v1, some 5⟩ : MetricSlot ℚ) (some v3) 11 =
      (⟨some v3, some 11⟩, some v3) := by
  refine ⟨?_, ?_, ?_⟩ <;>
    simp [Mqtt.try_publish, Mqtt.publish_interval_sec, h2, h3, Ne.symm h2, Ne.symm h3] <;>
    norm_num

/-- Witness for the amended claim C3 with candidate values 1, 2 and 3. -/
theorem c3_throttle_scenario_shifted_witness :
    Mqtt.try_publish (⟨none, some 0⟩ : MetricSlot ℚ) (some 1) 5 =
      (⟨some 1, some 5⟩, some 1)
    ∧ Mqtt.try_publish (⟨some 1, some 5⟩ : MetricSlot ℚ) (some 2) 6 =
      (⟨some 1, some 5⟩, none)
    ∧ Mqtt.try_publish (⟨some 1, some 5⟩ : MetricSlot ℚ) (some 3) 11 =
      (⟨some 3, some 11⟩, some 3) :=
  c3_throttle_scenario_shifted 1 2 3 (by norm_num) (by norm_num)

/-- Claim C4, evaluated at the failing input: a metric with no throttle
interval (its topic absent from the last-publish dictionary) publishes its
first differing candidate at t = 100, but because try_publish records the
publish time for every topic it publishes, a second differing candidate at
t = 101 is suppressed, contradicting publish-immediately-on-any-change. -/
theorem c4_unthrottled_metric_gets_throttled :
    Mqtt.try_publish (⟨none, none⟩ : MetricSlot ℚ) (some 1) 100 =
      (⟨some 1, some 100⟩, some 1) ∧
    Mqtt.try_publish (⟨some 1, some 100⟩ : MetricSlot ℚ) (some 2) 101 =
      (⟨some 1, some 100⟩, none) := by
  constructor
  · simp [Mqtt.try_publish]
  · simp [Mqtt.try_publish, Mqtt.publish_interval_sec]
    norm_num

set_option maxRecDepth 8000 in
/-- Claim C5 counterexample: the spec byte stream F7 05 00 42 00 22 followed
by the payload bytes and a correct checksum does assemble into a frame, but
its header type byte 0x42 is neither the gas code 0x0f nor the water code
0x50, so the main loop treats it as an unknown packet and no decoded water
packet is produced. -/
theorem c5_type_byte_counterexample :
    read_packet c5StreamBad = some (Packet.mk c5StreamBad, []) ∧
    classify_packet (Packet.mk c5StreamBad) = Decoded.unknown := by
  constructor
  · decide
  · decide

set_option maxRecDepth 8000 in
/-- Claim C5 as amended: with the water type code 0x50 as the header type
byte (0x42 is the water command type, the first payload byte, not the header
type byte), the stream F7 05 00 50 00 22 followed by the 34 payload bytes
with outlet-temp byte 0x28 and the correct checksum is assembled and decoded
into a water packet whose heat-exchanger outlet temperature is 20.0 Celsius
and 68.0 Fahrenheit. -/
theorem c5_water_pipeline :
    read_packet c5StreamGood = some (Packet.mk c5StreamGood, []) ∧
    classify_packet (Packet.mk c5StreamGood) =
      Decoded.water ⟨Packet.mk c5StreamGood⟩ ∧
    WaterPacket.heatexchanger_outlet_temp_c ⟨Packet.mk c5StreamGood⟩ = 20 ∧
    WaterPacket.heatexchanger_outlet_temp_f ⟨Packet.mk c5StreamGood⟩ = 68 := by
  have h12 : (WaterPacket.mk (Packet.mk c5StreamGood)).packet.data.getD 12 0 = 40 := by
    decide
  have hc : WaterPacket.heatexchanger_outlet_temp_c ⟨Packet.mk c5StreamGood⟩ = 20 := by
    unfold WaterPacket.heatexchanger_outlet_temp_c
    rw [h12]; norm_num
  refine ⟨by decide, by decide, hc, ?_⟩
  unfold WaterPacket.heatexchanger_outlet_temp_f Helpers.convert_c_f
  rw [hc]
  norm_num [pyRound1, floorQ]

/-- Every frame the assembler emits, at any fuel, has a trailing checksum
byte equal to the checksum of all preceding frame bytes. -/
theorem read_packet_fuel_crc (fuel : Nat) :
    ∀ (stream : List Nat) (p : Packet) (rest : List Nat),
      read_packet_fuel fuel stream = some (p, rest) →
      Helpers.calculate_crc p.data.dropLast = p.crc := by
  induction fuel with
  | zero => intro s p r h; simp [read_packet_fuel] at h
  | succ fuel ih =>
    intro s p r h
    cases s with
    | nil => simp [read_packet_fuel] at h
    | cons b rest1 =>
      simp only [read_packet_fuel] at h
      split at h
      · exact ih _ _ _ h
      · split at h
        · exact absurd h (by simp)
        · split at h
          · exact ih _ _ _ h
          · split at h
            · exact absurd h (by simp)
            · split at h
              · exact absurd h (by simp)
              · split at h
                case isTrue hcrc =>
                  obtain ⟨rfl, rfl⟩ : p = _ ∧ r = _ := by
                    have h2 := Option.some.inj h
                    exact ⟨(Prod.mk.inj h2).1.symm, (Prod.mk.inj h2).2.symm⟩
                  exact hcrc
                case isFalse => exact ih _ _ _ h

/-- Claim C6: every frame read_packet emits satisfies checksum over all bytes
but the last equal to the last byte; and on a concrete stream holding a frame
with a corrupted checksum byte followed by a valid frame, the assembler emits
no frame for the corrupted one and resumes scanning, emitting the valid
frame from the remaining stream. -/
theorem c6_frame_emission_checksum :
    (∀ (stream : List Nat) (p : Packet) (rest : List Nat),
        read_packet stream = some (p, rest) →
        Helpers.calculate_crc p.data.dropLast = p.crc)
    ∧ Helpers.calculate_crc c6CorruptFrame.dropLast ≠ (Packet.mk c6CorruptFrame).crc
    ∧ read_packet (c6CorruptFrame ++ c6ValidFrame) =
        some (Packet.mk c6ValidFrame, []) := by
  refine ⟨fun s p r h => read_packet_fuel_crc _ s p r h, by decide, ?_⟩
  decide

/-- Witness for claim C6: the minimal valid frame is emitted, and the emitted
frame satisfies the checksum invariant via the claim theorem. -/
theorem c6_frame_emission_checksum_witness :
    read_packet c6ValidFrame = some (Packet.mk c6ValidFrame, []) ∧
    Helpers.calculate_crc (Packet.mk c6ValidFrame).data.dropLast =
      (Packet.mk c6ValidFrame).crc :=
  ⟨by decide,
    c6_frame_emission_checksum.1 c6ValidFrame (Packet.mk c6ValidFrame) [] (by decide)⟩

/-- Claim C7: a frame carrying the gas type code with a header length other
than 42 fails gas decoding, and a frame carrying the water type code with a
header length other than 34 fails water decoding; the main-loop dispatch
reports both as invalid and yields no typed field view. -/
theorem c7_length_mismatch_decode_fails (p q : Packet)
    (hp : p.header.type = Header.GAS_ID) (hpl : p.header.length ≠ 42)
    (hq : q.header.type = Header.WATER_ID) (hql : q.header.length ≠ 34) :
    GasPacket.decode p = none ∧ classify_packet p = Decoded.invalid ∧
    WaterPacket.decode q = none ∧ classify_packet q = Decoded.invalid := by
  have hgp : GasPacket.decode p = none := by
    unfold GasPacket.decode; rw [if_neg hpl]
  have hwq : WaterPacket.decode q = none := by
    unfold WaterPacket.decode; rw [if_neg hql]
  have hqg : ¬ q.header.type = Header.GAS_ID := by
    rw [hq]; decide
  refine ⟨hgp, ?_, hwq, ?_⟩
  · unfold classify_packet
    rw [if_pos hp, hgp]
  · unfold classify_packet
    rw [if_neg hqg, if_pos hq, hwq]

/-- Witness for claim C7 at concrete frames of declared length 10. -/
theorem c7_length_mismatch_decode_fails_witness :
    GasPacket.decode c7GasFrame = none ∧
    classify_packet c7GasFrame = Decoded.invalid ∧
    WaterPacket.decode c7WaterFrame = none ∧
    classify_packet c7WaterFrame = Decoded.invalid :=
  c7_length_mismatch_decode_fails c7GasFrame c7WaterFrame
    (by decide) (by decide) (by decide) (by decide)

/-- Claim C8: submitting a candidate equal to the metric last published value
performs no action at any time: nothing is published and both the stored
value and the last-publish time are unchanged. -/
theorem c8_equal_value_no_action {V : Type} [DecidableEq V]
    (v : V) (lp : Option ℚ) (t : ℚ) :
    Mqtt.try_publish (⟨some v, lp⟩ : MetricSlot V) (some v) t =
      (⟨some v, lp⟩, none) := by
  simp [Mqtt.try_publish]

/-- Witness for claim C8 at a concrete slot and a late time. -/
theorem c8_equal_value_no_action_witness :
    Mqtt.try_publish (⟨some 1, some 0⟩ : MetricSlot ℚ) (some 1) 1000 =
      (⟨some 1, some 0⟩, none) :=
  c8_equal_value_no_action 1 (some 0) 1000

/-- Claim C9 counterexample: when the downstream publish call raises, the
stored state is not unchanged: the publish at t = 100 of value 1 raises, yet
the slot already carries the new value and timestamp, because the source
mutates the attribute and the last-publish dictionary before awaiting the
publish call. -/
theorem c9_raise_state_changed :
    (Mqtt.try_publish_exc (⟨none, none⟩ : MetricSlot ℚ) (some 1) 100 true).2 = true ∧
    (Mqtt.try_publish_exc (⟨none, none⟩ : MetricSlot ℚ) (some 1) 100 true).1 ≠
      (⟨none, none⟩ : MetricSlot ℚ) := by
  constructor
  · simp [Mqtt.try_publish_exc]
  · simp [Mqtt.try_publish_exc]

/-- Claim C9 as amended: the metric state commits before the publish call is
made: whenever a differing candidate passes the throttle check and the
publish call raises, the slot already holds the new value and the publish
timestamp (the publish is presumed successful). -/
theorem c9_commit_before_publish {V : Type} [DecidableEq V]
    (val : Option V) (lpt : Option ℚ) (v : V) (t : ℚ)
    (hneq : val ≠ some v)
    (hwin : lpt = none ∨ Mqtt.publish_interval_sec ≤ t - lpt.getD 0) :
    Mqtt.try_publish_exc (⟨val, lpt⟩ : MetricSlot V) (some v) t true =
      (⟨some v, some t⟩, true) := by
  cases lpt with
  | none => simp [Mqtt.try_publish_exc, hneq]
  | some lp =>
    rcases hwin with h | h
    · exact absurd h (by simp)
    · simp only [Option.getD_some] at h
      simp [Mqtt.try_publish_exc, hneq, h]

/-- Witness for the amended claim C9 at a fresh slot. -/
theorem c9_commit_before_publish_witness :
    Mqtt.try_publish_exc (⟨none, none⟩ : MetricSlot ℚ) (some 1) 100 true =
      (⟨some 1, some 100⟩, true) :=
  c9_commit_before_publish none none 1 100 (by simp) (Or.inl rfl)

/-- Claim C10: the candidate submitted for the water flow-rate metric is the
decoded flow rate in gallons per minute exactly when the flow status byte is
0x20 (demand) and the system-active flag byte is 0x01; in every other case
the candidate is 0.0. -/
theorem c10_flow_rate_candidate_rule (w : WaterPacket) :
    water_flow_rate_candidate w =
      if w.packet.data.getD 8 0 = 0x20 ∧ w.packet.data.getD 27 0 = 0x01
      then w.flow_rate_gpm else 0 := by
  unfold water_flow_rate_candidate WaterPacket.flow_status_demand
    WaterPacket.flow_status WaterPacket.system_active
  by_cases h8 : w.packet.data.getD 8 0 = 0x20 <;>
    by_cases h27 : w.packet.data.getD 27 0 = 0x01 <;>
      simp [h8, h27]
